import Mathlib

/-!
Shallow embedding of `detect-cms-cli.js` (techscanner-script): the plan
registry, the detector-client normalization, the scan orchestrator loop,
the output namer, and the surrounding main flow, with theorems checking
the specification's claims about them.

Conventions of the embedding:
* JavaScript strings are Lean `String`s; fields that may be absent
  (`undefined`) in the upstream JSON are `Option String` / `Option (List _)`,
  and the source's `x || ''` / `x || []` defaults become `Option.getD`.
  (`'' || ''` and `(some "").getD ""` agree, since the only falsy string
  is the empty one.)
* The network, the filesystem and the clock are external: the per-domain
  API behaviour is an oracle `String → ApiBehavior`, file existence is a
  predicate `String → Bool`, and `new Date().toISOString()` values are
  `String` parameters.
* `process.exit` and the `break` of the main loop become explicit
  constructors / early returns of total functions.
-/

/-- A plan entry of the `PLANS` table (source lines 20–30). -/
structure Plan where
  monthlyQuota : Nat
  minTimeMs : Nat
deriving DecidableEq, Repr

/-- The `PLANS` registry: plan identifier to plan (source lines 20–30). -/
def PLANS : String → Option Plan := fun id =>
  if id = "free" then some ⟨500, 15000⟩
  else if id = "10000" then some ⟨10000, 5000⟩
  else if id = "20000" then some ⟨20000, 2000⟩
  else if id = "50000" then some ⟨50000, 1000⟩
  else if id = "100000" then some ⟨100000, 1000⟩
  else if id = "200000" then some ⟨200000, 250⟩
  else if id = "300000" then some ⟨300000, 250⟩
  else if id = "400000" then some ⟨400000, 250⟩
  else if id = "500000" then some ⟨500000, 250⟩
  else none

/-- One entry of the upstream `results[]` array; every field may be absent. -/
structure Tech where
  name : Option String
  id : Option String
  version : Option String
  categories : Option (List String)
  url : Option String
deriving DecidableEq, Repr

/-- A successful JSON body of the Tech API (`resp.data`).  `error` models
the truthiness of `resp.data.error`; `msg` is the message thrown with it
(source line 47).  `result` collapses `resp.data.result?.code` and
`resp.data.result?.msg`; `meta_social` collapses `resp.data.meta?.social`. -/
structure ApiResponse where
  error : Bool
  msg : String
  request : Option String
  last_checked : Option String
  result_code : Option String
  result_msg : Option String
  results : Option (List Tech)
  meta_social : Option (List String)
deriving DecidableEq, Repr

/-- Behaviour of one API call for one domain: either a JSON response, or a
network-level failure (timeout, connection error, non-2xx) whose message
is what `axios` put in `error.message`. -/
inductive ApiBehavior where
  | response (r : ApiResponse)
  | netError (msg : String)
deriving DecidableEq, Repr

/-- The normalized shape `detectCMS` returns (source lines 51–59). -/
structure TechResult where
  request : String
  last_checked : String
  result_code : String
  result_msg : String
  results : List Tech
  meta_social : List String
  error : String
deriving DecidableEq, Repr

/-- `detectCMS` (source lines 35–71): throw the upstream `msg` when the
body carries a truthy `error`, rethrow network errors, otherwise normalize
absent fields to empty defaults. -/
def detectCMS : ApiBehavior → Except String TechResult
  | .netError m => .error m
  | .response r =>
    if r.error then .error r.msg
    else .ok
      { request := r.request.getD ""
        last_checked := r.last_checked.getD ""
        result_code := r.result_code.getD ""
        result_msg := r.result_msg.getD ""
        results := r.results.getD []
        meta_social := r.meta_social.getD []
        error := "" }

/-- One `techN_*` column group of a row. -/
structure TechSlot where
  name : String
  id : String
  version : String
  categories : String
  url : String
deriving DecidableEq, Repr

/-- The all-empty slot written by the fill loops (source lines 286–292 and
312–318). -/
def emptySlot : TechSlot := ⟨"", "", "", "", ""⟩

/-- Projection of one upstream tech entry into a slot (source lines
277–282): `tech.name || ''` etc.; `tech.categories ? join(', ') : ''`
(an empty array is truthy in JS and joins to `''`, which coincides with
the `none` default). -/
def slotOfTech (t : Tech) : TechSlot :=
  { name := t.name.getD ""
    id := t.id.getD ""
    version := t.version.getD ""
    categories := match t.categories with
      | some cs => String.intercalate ", " cs
      | none => ""
    url := t.url.getD "" }

/-- The ten fixed slots of a success row: the first loop (source lines
276–283) fills slot `i` from `results[i]` for `i < min(N, 10)`, the second
loop (lines 286–292) fills slots `N … 9` with empties when `N < 10`. -/
def techSlots (ts : List Tech) : List TechSlot :=
  (ts.take 10).map slotOfTech ++ List.replicate (10 - ts.length) emptySlot

/-- JSON string escaping of `"` and `\` (backslash); models
`JSON.stringify` on string values for ordinary content. -/
def jsonEscape (s : String) : String :=
  String.join (s.toList.map fun c =>
    if c = '\\' then "\\\\" else if c = '"' then "\\\"" else String.singleton c)

/-- Serialization of a string value. -/
def jsonStr (s : String) : String := "\"" ++ jsonEscape s ++ "\""

/-- Serialization of one tech entry, fields in struct order, absent fields
omitted (models `JSON.stringify` up to upstream key order, on which no
claim depends). -/
def jsonOfTech (t : Tech) : String :=
  let fields : List String :=
    (match t.name with | some v => ["\"name\":" ++ jsonStr v] | none => []) ++
    (match t.id with | some v => ["\"id\":" ++ jsonStr v] | none => []) ++
    (match t.version with | some v => ["\"version\":" ++ jsonStr v] | none => []) ++
    (match t.categories with
      | some cs => ["\"categories\":[" ++ String.intercalate "," (cs.map jsonStr) ++ "]"]
      | none => []) ++
    (match t.url with | some v => ["\"url\":" ++ jsonStr v] | none => [])
  "\x7b" ++ String.intercalate "," fields ++ "\x7d"

/-- `JSON.stringify(techData.results)` (source line 270). -/
def jsonOfTechs (ts : List Tech) : String :=
  "[" ++ String.intercalate "," (ts.map jsonOfTech) ++ "]"

/-- `JSON.stringify(techData.meta_social)` (source line 271); the entries
are opaque pre-serialized values. -/
def jsonOfSocial (ss : List String) : String :=
  "[" ++ String.intercalate "," ss ++ "]"

/-- A flattened output record: the object pushed onto `results`
(source lines 263–294 / 299–320); the `tech` list holds the ten
`techN_*` column groups in order. -/
structure Row where
  domain : String
  request : String
  last_checked : String
  result_code : String
  result_msg : String
  results_count : Nat
  results_json : String
  meta_social_json : String
  error : String
  tech : List TechSlot
deriving DecidableEq, Repr

/-- The success-branch row (source lines 263–294). -/
def buildRow (domain : String) (td : TechResult) : Row :=
  { domain := domain
    request := td.request
    last_checked := td.last_checked
    result_code := td.result_code
    result_msg := td.result_msg
    results_count := td.results.length
    results_json := jsonOfTechs td.results
    meta_social_json := jsonOfSocial td.meta_social
    error := td.error
    tech := techSlots td.results }

/-- The failure-branch row (source lines 299–320): domain and error
message populated, everything else empty/default, all ten slots empty. -/
def errorRow (domain : String) (msg : String) : Row :=
  { domain := domain
    request := ""
    last_checked := ""
    result_code := ""
    result_msg := ""
    results_count := 0
    results_json := ""
    meta_social_json := ""
    error := msg
    tech := List.replicate 10 emptySlot }

/-- JS truthiness of an optional string: absent and `''` are falsy. -/
def jsTruthy (o : Option String) : Bool := o.getD "" ≠ ""

/-- `techData.results.find(r => r.name && r.name.toLowerCase() === 'umbraco')`
(source lines 251–253). -/
def umbracoResult (td : TechResult) : Option Tech :=
  td.results.find? fun t => jsTruthy t.name && (t.name.getD "").toLower == "umbraco"

/-- The console line printed on the success branch (source lines 255–260);
classification by `umbracoResult` affects only this string. -/
def successConsole (i total : Nat) (domain : String) (td : TechResult) : String :=
  match umbracoResult td with
  | some u =>
      "[" ++ toString (i + 1) ++ "/" ++ toString total ++ "] ✅ " ++ domain ++
        " → Umbraco" ++ (if jsTruthy u.version then " v" ++ u.version.getD "" else "")
  | none =>
      let techNames := String.intercalate ", " (td.results.map fun t => t.name.getD "")
      "[" ++ toString (i + 1) ++ "/" ++ toString total ++ "] ❌ " ++ domain ++
        " not Umbraco (" ++ (if techNames ≠ "" then techNames else "unknown") ++ ")"

/-- The whole success branch for one domain (source lines 250–294): the
console line and the row pushed onto `results`. -/
def successStep (i total : Nat) (domain : String) (td : TechResult) : String × Row :=
  (successConsole i total domain td, buildRow domain td)

/-- Outcome of the main `for` loop (source lines 238–322).  `dispatched`
is the ghost trace of domains for which `detectCMS` was actually invoked,
in order; `halted` records whether the quota `break` fired. -/
structure RunResult where
  used : Nat
  rows : List Row
  halted : Bool
  dispatched : List String
deriving DecidableEq, Repr

/-- The row a domain contributes, as a function of the oracle. -/
def rowFor (oracle : String → ApiBehavior) (d : String) : Row :=
  match detectCMS (oracle d) with
  | .ok td => buildRow d td
  | .error m => errorRow d m

/-- Whether detection for a domain succeeds under the oracle. -/
def detectOk (oracle : String → ApiBehavior) (d : String) : Bool :=
  (detectCMS (oracle d)).isOk

/-- The main loop (source lines 238–322): for each domain, first the quota
check (`used >= plan.monthlyQuota` → `break`, line 240), then the dispatch
through the limiter; the success branch increments `used` and pushes the
full row, the catch branch leaves `used` unchanged and pushes the error
row; either way the loop continues with the next domain.  `acc` is the
`results` array so far, `disp` the dispatch trace so far. -/
def runLoop (plan : Plan) (oracle : String → ApiBehavior) :
    List String → Nat → List Row → List String → RunResult
  | [], used, acc, disp => ⟨used, acc, false, disp⟩
  | d :: rest, used, acc, disp =>
    if used ≥ plan.monthlyQuota then ⟨used, acc, true, disp⟩
    else
      match detectCMS (oracle d) with
      | .ok td => runLoop plan oracle rest (used + 1) (acc ++ [buildRow d td]) (disp ++ [d])
      | .error m => runLoop plan oracle rest used (acc ++ [errorRow d m]) (disp ++ [d])

/-- A whole scan run from the initial state (`used = 0`, `results = []`,
source lines 234–235). -/
def runScan (plan : Plan) (oracle : String → ApiBehavior) (domains : List String) : RunResult :=
  runLoop plan oracle domains 0 [] []

/-- The parsed CLI options (source lines 164–176), with commander's
defaults.  `fetch` is the flag's presence; `input`, `domain`, `limit` are
absent unless supplied. -/
structure Opts where
  plan : String := "free"
  source : String := "tranco"
  extension : String := "nl"
  fetch : Bool := false
  input : Option String := none
  domain : Option String := none
  limit : Option Nat := none
  output : String := "results.csv"
deriving DecidableEq, Repr

/-- `new Date().toISOString().replace(/[:.]/g, '-').slice(0, -5)`
(source lines 122 and 152), applied to the raw ISO string. -/
def jsTimestamp (raw : String) : String :=
  let l := (raw.toList.map fun c => if c = ':' ∨ c = '.' then '-' else c)
  String.mk (l.take (l.length - 5))

/-- `opts.domain.replace(/[^a-zA-Z0-9]/g, '-')` (source line 127). -/
def sanitizeDomain (d : String) : String :=
  String.mk (d.toList.map fun c => if c.isAlphanum then c else '-')

/-- `generateDefaultFilename` (source lines 121–136); `raw` is the ISO
clock reading taken inside the function. -/
def generateDefaultFilename (opts : Opts) (raw : String) : String :=
  let parts : List String :=
    if jsTruthy opts.domain then
      ["cms-scan", "single", sanitizeDomain (opts.domain.getD "")]
    else
      ["cms-scan"] ++
      (if opts.source ≠ "" then [opts.source] else []) ++
      (if opts.extension ≠ "" then [opts.extension] else []) ++
      (match opts.limit with
        | some l => if l ≠ 0 then ["limit-" ++ toString l] else []
        | none => [])
  String.intercalate "-" (parts ++ [jsTimestamp raw]) ++ ".csv"

/-- Characters of a path after its last `/` (the last path component used
by Node's `path.basename` / `path.extname`). -/
def lastComponent (p : String) : String :=
  String.mk (p.toList.reverse.takeWhile (· ≠ '/')).reverse

/-- `path.extname` for ordinary paths: the suffix of the last component
from its last `.`, empty when there is no dot or the only dot leads a
dotfile (not modelled: components made solely of dots such as `..`). -/
def extname (p : String) : String :=
  let b := (lastComponent p).toList
  let after := b.reverse.takeWhile (fun c => c ≠ '.')
  if after.length + 1 < b.length then String.mk ('.' :: after.reverse)
  else ""

/-- `path.basename(p, ext)`: the last component, with `ext` stripped when
it is a proper suffix of it. -/
def basenameExt (p ext : String) : String :=
  let b := (lastComponent p).toList
  let e := ext.toList
  if e ≠ [] ∧ b ≠ e ∧ e.length ≤ b.length ∧ b.reverse.take e.length = e.reverse
  then String.mk (b.take (b.length - e.length))
  else String.mk b

/-- The first half of `getOutputFilename` (source lines 142–148): replace
an absent/default `results.csv` output option by a generated name. -/
def resolveOutput (opts : Opts) (raw1 : String) : String :=
  if opts.output = "" ∨ opts.output = "results.csv"
  then generateDefaultFilename opts raw1
  else opts.output

/-- The collision rename (source lines 152–155): timestamp inserted
before the extension (note `path.basename` also drops any directory). -/
def timestampedName (filename : String) (raw2 : String) : String :=
  let ext := extname filename
  basenameExt filename ext ++ "-" ++ jsTimestamp raw2 ++ ext

/-- `getOutputFilename` (source lines 141–160).  `ex` is the
`fs.existsSync` state; `raw1`, `raw2` the two separate clock readings. -/
def getOutputFilename (opts : Opts) (ex : String → Bool) (raw1 raw2 : String) : String :=
  let filename := resolveOutput opts raw1
  if ex filename then timestampedName filename raw2
  else filename

/-- TLD filter predicate (source lines 222–223):
`new RegExp('\\.' + ext.replace(/^\./,'') + '$', 'i')` — the domain ends,
case-insensitively, with a dot followed by the extension (extension
assumed free of regex metacharacters, as in every documented use). -/
def tldMatch (ext : String) (d : String) : Bool :=
  let e := if ext.toList.head? = some '.' then String.mk ext.toList.tail else ext
  let pat := ('.' :: e.toList).map Char.toLower
  (d.toList.map Char.toLower).reverse.take pat.length = pat.reverse

/-- Terminal behaviour of the main IIFE. `fatal` is a `process.exit(1)`
before any scanning; `cleanNoOutput` is the `process.exit(0)` of the
empty-list check (line 217), with no output file created; `finished`
means the run reached `csvWriter.writeRecords` (line 399), which creates
the output file (header row even with zero records). -/
inductive MainOutcome where
  | fatal (code : Nat)
  | cleanNoOutput
  | finished (rows : List Row) (used : Nat) (outFile : String)
deriving DecidableEq, Repr

/-- The acquisition branch (source lines 190–213): which list the run
scans, or the exit code of a fatal configuration error.  `acquired`
stands for the externally produced list of the `--fetch` / `--input`
branches (download or file parse, external collaborators); the
`--domain` branch builds its own singleton. -/
def acquireDomains (opts : Opts) (acquired : List String) : Except Nat (List String) :=
  if opts.fetch then
    if opts.source = "majestic" ∨ opts.source = "tranco" then .ok acquired
    else .error 1
  else if jsTruthy opts.input then .ok acquired
  else if jsTruthy opts.domain then .ok [opts.domain.getD ""]
  else .error 1

/-- TLD filtering and limit truncation (source lines 221–225), skipped
when scanning a single domain; `if (opts.limit)` is falsy for `0`. -/
def selectDomains (opts : Opts) (ds0 : List String) : List String :=
  if jsTruthy opts.domain then ds0
  else
    let filtered := ds0.filter (tldMatch opts.extension)
    match opts.limit with
    | some l => if l ≠ 0 then filtered.take l else filtered
    | none => filtered

/-- The main flow from option validation to output (source lines
177–400).  Branch order, the position of the empty check (line 215,
before TLD filtering), and the truthiness tests follow the source. -/
def mainFlow (opts : Opts) (acquired : List String) (oracle : String → ApiBehavior)
    (ex : String → Bool) (raw1 raw2 : String) : MainOutcome :=
  if opts.source = "alexa" then .fatal 1
  else
    match PLANS opts.plan with
    | none => .fatal 1
    | some plan =>
      match acquireDomains opts acquired with
      | .error c => .fatal c
      | .ok ds0 =>
        if ds0 = [] then .cleanNoOutput
        else
          let r := runScan plan oracle (selectDomains opts ds0)
          .finished r.rows r.used (getOutputFilename opts ex raw1 raw2)

/-! ## Concrete data for witnesses and counterexamples -/

/-- A concrete successful API body used by witnesses. -/
def respW : ApiResponse :=
  { error := false
    msg := ""
    request := some "a.nl"
    last_checked := some "2025-01-01"
    result_code := some "200"
    result_msg := some "Success"
    results := some [⟨some "Umbraco", some "3", some "8.0", some ["CMS"], some "https://whatcms.org/c/3"⟩]
    meta_social := some [] }

/-- A concrete oracle used by witnesses: `bad.com` times out, every other
domain answers `respW`. -/
def oracleW : String → ApiBehavior := fun d =>
  if d = "bad.com" then .netError "timeout of 15000ms exceeded" else .response respW

/-- The all-absent upstream tech entry (used as a `getD` default). -/
def defTech : Tech := ⟨none, none, none, none, none⟩

/-- The detection result with (only) the name of technology `k` replaced:
"two Detection Results differing only in whether they contain a matching
technology name". -/
def withName (td : TechResult) (k : Nat) (n' : Option String) : TechResult :=
  { td with results := td.results.set k { td.results.getD k defTech with name := n' } }

/-- A concrete normalized detection result used by witnesses. -/
def wTd : TechResult :=
  ⟨"a.nl", "2025-01-01", "200", "Success",
   [⟨some "Umbraco", some "3", some "8.0", some ["CMS"], some "https://whatcms.org/c/3"⟩],
   [], ""⟩

/-! ## Helper lemmas about the main loop -/

/-- The row built for a domain always carries that domain. -/
theorem rowFor_domain (oracle : String → ApiBehavior) (d : String) :
    (rowFor oracle d).domain = d := by
  unfold rowFor
  cases detectCMS (oracle d) <;> rfl

/-- Decomposition of `runLoop`: some initial segment `pre` of the input is
dispatched; the dispatch trace, the rows and the quota counter extend the
accumulators by exactly that segment, its rows, and its success count. -/
theorem runLoop_decomp (plan : Plan) (oracle : String → ApiBehavior) (ds : List String) :
    ∀ (used : Nat) (acc : List Row) (disp : List String),
    ∃ pre rest,
      ds = pre ++ rest ∧
      (runLoop plan oracle ds used acc disp).dispatched = disp ++ pre ∧
      (runLoop plan oracle ds used acc disp).rows = acc ++ pre.map (rowFor oracle) ∧
      (runLoop plan oracle ds used acc disp).used
        = used + (pre.filter (detectOk oracle)).length := by
  induction ds with
  | nil =>
    intro used acc disp
    exact ⟨[], [], by simp [runLoop]⟩
  | cons d rest ih =>
    intro used acc disp
    by_cases h : used ≥ plan.monthlyQuota
    · exact ⟨[], d :: rest, by simp [runLoop, h]⟩
    · cases hdet : detectCMS (oracle d) with
      | error m =>
        obtain ⟨pre, rest', h1, h2, h3, h4⟩ := ih used (acc ++ [errorRow d m]) (disp ++ [d])
        have hok : detectOk oracle d = false := by simp [detectOk, hdet, Except.isOk, Except.toBool]
        refine ⟨d :: pre, rest', by simp [h1], ?_, ?_, ?_⟩
        · simp only [runLoop, if_neg h, hdet]
          simp [h2]
        · simp only [runLoop, if_neg h, hdet]
          simp [h3, rowFor, hdet]
        · simp only [runLoop, if_neg h, hdet]
          rw [h4, List.filter_cons, hok]
          simp
      | ok td =>
        obtain ⟨pre, rest', h1, h2, h3, h4⟩ := ih (used + 1) (acc ++ [buildRow d td]) (disp ++ [d])
        have hok : detectOk oracle d = true := by simp [detectOk, hdet, Except.isOk, Except.toBool]
        refine ⟨d :: pre, rest', by simp [h1], ?_, ?_, ?_⟩
        · simp only [runLoop, if_neg h, hdet]
          simp [h2]
        · simp only [runLoop, if_neg h, hdet]
          simp [h3, rowFor, hdet]
        · simp only [runLoop, if_neg h, hdet]
          rw [h4, List.filter_cons, hok]
          simp
          omega

/-- The quota counter never grows past the quota. -/
theorem runLoop_used_le (plan : Plan) (oracle : String → ApiBehavior) (ds : List String) :
    ∀ (used : Nat) (acc : List Row) (disp : List String),
    used ≤ plan.monthlyQuota →
    (runLoop plan oracle ds used acc disp).used ≤ plan.monthlyQuota := by
  induction ds with
  | nil =>
    intro used acc disp h
    simpa [runLoop] using h
  | cons d rest ih =>
    intro used acc disp h
    by_cases hq : used ≥ plan.monthlyQuota
    · simpa [runLoop, hq] using h
    · cases hdet : detectCMS (oracle d) with
      | error m =>
        simp only [runLoop, if_neg hq, hdet]
        exact ih _ _ _ h
      | ok td =>
        simp only [runLoop, if_neg hq, hdet]
        exact ih _ _ _ (by omega)

/-- When the quota is already used up and a domain remains, the loop
returns the accumulated state unchanged, marked halted, without
dispatching. -/
theorem runLoop_halt (plan : Plan) (oracle : String → ApiBehavior) (d : String)
    (rest : List String) (used : Nat) (acc : List Row) (disp : List String)
    (h : used ≥ plan.monthlyQuota) :
    runLoop plan oracle (d :: rest) used acc disp = ⟨used, acc, true, disp⟩ := by
  simp [runLoop, h]

/-! ## C1 -/

/-- C1: along every run (`used`, `acc`, `disp` range over all intermediate
loop states, hence over every prefix of the processed sequence) the quota
counter never exceeds `Plan.monthlyQuota`; the moment `used` has reached
the quota with a domain left, the loop returns halted without dispatching
it — by returning a value, not an error — and every row already appended
(`acc`) is preserved in the final row sequence. -/
theorem C1_quota_invariant (plan : Plan) (oracle : String → ApiBehavior)
    (ds : List String) (used : Nat) (acc : List Row) (disp : List String)
    (h : used ≤ plan.monthlyQuota) :
    (runLoop plan oracle ds used acc disp).used ≤ plan.monthlyQuota ∧
    (∃ tail, (runLoop plan oracle ds used acc disp).rows = acc ++ tail) ∧
    (used = plan.monthlyQuota → ∀ d rest, ds = d :: rest →
      runLoop plan oracle ds used acc disp = ⟨used, acc, true, disp⟩) := by
  refine ⟨runLoop_used_le plan oracle ds used acc disp h, ?_, ?_⟩
  · obtain ⟨pre, rest, _, _, h3, _⟩ := runLoop_decomp plan oracle ds used acc disp
    exact ⟨pre.map (rowFor oracle), h3⟩
  · intro hq d rest hds
    subst hds
    exact runLoop_halt plan oracle d rest used acc disp (Nat.le_of_eq hq.symm)

/-- C1 witness: a run whose quota (2) is already reached, with a domain
pending, at a concrete intermediate state. -/
theorem C1_quota_invariant_witness :
    (runLoop ⟨2, 15000⟩ oracleW ["c.nl"] 2 [] []).used ≤ 2 ∧
    (∃ tail, (runLoop ⟨2, 15000⟩ oracleW ["c.nl"] 2 [] []).rows = [] ++ tail) ∧
    (2 = (2 : Nat) → ∀ d rest, ["c.nl"] = d :: rest →
      runLoop ⟨2, 15000⟩ oracleW ["c.nl"] 2 [] [] = ⟨2, [], true, []⟩) :=
  C1_quota_invariant ⟨2, 15000⟩ oracleW ["c.nl"] 2 [] [] (by decide)

/-! ## C2 -/

/-- C2 counterexample: one domain whose detection fails.  `detectCMS` was
invoked for it (it is in the dispatch trace), yet the final `quotaUsed`
is `0`, not `1`: the failure branch does not increment `used`, so
`quotaUsed` does not equal the number of Detector Client invocations. -/
theorem C2_counterexample :
    (runScan ⟨500, 15000⟩ oracleW ["bad.com"]).dispatched.length = 1 ∧
    (runScan ⟨500, 15000⟩ oracleW ["bad.com"]).used = 0 ∧
    (runScan ⟨500, 15000⟩ oracleW ["bad.com"]).used
      ≠ (runScan ⟨500, 15000⟩ oracleW ["bad.com"]).dispatched.length := by
  refine ⟨?_, ?_, ?_⟩ <;> decide

/-- C2 (amended): after the run reaches its terminal state, `quotaUsed`
is at most `Plan.monthlyQuota` and equals the number of dispatched
domains whose detection **succeeded**; domains whose detection ended in
the failure branch are dispatched but not counted. -/
theorem C2_used_counts_successes (plan : Plan) (oracle : String → ApiBehavior)
    (domains : List String) :
    (runScan plan oracle domains).used ≤ plan.monthlyQuota ∧
    (runScan plan oracle domains).used
      = ((runScan plan oracle domains).dispatched.filter (detectOk oracle)).length := by
  constructor
  · exact runLoop_used_le plan oracle domains 0 [] [] (Nat.zero_le _)
  · obtain ⟨pre, rest, _, h2, _, h4⟩ := runLoop_decomp plan oracle domains 0 [] []
    unfold runScan at *
    rw [h2, h4]
    simp

/-! ## C5 -/

/-- C5: the output rows are exactly one per dispatched domain — never
dropped, never duplicated, success and failure alike — carrying the
domains in input order, and the dispatched sequence is an initial
segment of the input domain sequence. -/
theorem C5_one_row_per_domain (plan : Plan) (oracle : String → ApiBehavior)
    (domains : List String) :
    (runScan plan oracle domains).rows.map Row.domain
      = (runScan plan oracle domains).dispatched ∧
    ∃ rest, domains = (runScan plan oracle domains).dispatched ++ rest := by
  obtain ⟨pre, rest, h1, h2, h3, _⟩ := runLoop_decomp plan oracle domains 0 [] []
  unfold runScan at *
  constructor
  · rw [h2, h3]
    simp [List.map_map, Function.comp_def, rowFor_domain]
  · exact ⟨rest, by rw [h2]; simpa using h1⟩

/-! ## C7 -/

/-- C7: when detection for a domain fails with message `m` (upstream
error, network failure or timeout all surface as `Except.error m`) and
quota remains, the loop appends `errorRow d m` — domain and failure
message populated, every other field at its empty/default value, all ten
slots empty — and continues with the remaining domains; the failure never
aborts the run (the loop proceeds exactly as from the next domain). -/
theorem C7_failure_recovered (plan : Plan) (oracle : String → ApiBehavior)
    (d : String) (rest : List String) (used : Nat) (acc : List Row)
    (disp : List String) (m : String)
    (hq : used < plan.monthlyQuota) (hdet : detectCMS (oracle d) = .error m) :
    runLoop plan oracle (d :: rest) used acc disp
      = runLoop plan oracle rest used (acc ++ [errorRow d m]) (disp ++ [d]) ∧
    errorRow d m ∈ (runLoop plan oracle (d :: rest) used acc disp).rows ∧
    (errorRow d m).domain = d ∧ (errorRow d m).error = m ∧
    (errorRow d m).request = "" ∧ (errorRow d m).last_checked = "" ∧
    (errorRow d m).result_code = "" ∧ (errorRow d m).result_msg = "" ∧
    (errorRow d m).results_count = 0 ∧ (errorRow d m).results_json = "" ∧
    (errorRow d m).meta_social_json = "" ∧
    (errorRow d m).tech = List.replicate 10 emptySlot := by
  have h' : ¬ used ≥ plan.monthlyQuota := by omega
  have hstep : runLoop plan oracle (d :: rest) used acc disp
      = runLoop plan oracle rest used (acc ++ [errorRow d m]) (disp ++ [d]) := by
    simp only [runLoop, if_neg h', hdet]
  refine ⟨hstep, ?_, rfl, rfl, rfl, rfl, rfl, rfl, rfl, rfl, rfl, rfl⟩
  rw [hstep]
  obtain ⟨pre, rest', _, _, h3, _⟩ :=
    runLoop_decomp plan oracle rest used (acc ++ [errorRow d m]) (disp ++ [d])
  rw [h3]
  simp

/-- C7 witness: the failing domain `bad.com` with one domain after it. -/
theorem C7_failure_recovered_witness :
    runLoop ⟨500, 15000⟩ oracleW ["bad.com", "c.nl"] 0 [] []
      = runLoop ⟨500, 15000⟩ oracleW ["c.nl"] 0
          ([] ++ [errorRow "bad.com" "timeout of 15000ms exceeded"]) ([] ++ ["bad.com"]) ∧
    errorRow "bad.com" "timeout of 15000ms exceeded"
      ∈ (runLoop ⟨500, 15000⟩ oracleW ["bad.com", "c.nl"] 0 [] []).rows ∧
    (errorRow "bad.com" "timeout of 15000ms exceeded").domain = "bad.com" ∧
    (errorRow "bad.com" "timeout of 15000ms exceeded").error = "timeout of 15000ms exceeded" ∧
    (errorRow "bad.com" "timeout of 15000ms exceeded").request = "" ∧
    (errorRow "bad.com" "timeout of 15000ms exceeded").last_checked = "" ∧
    (errorRow "bad.com" "timeout of 15000ms exceeded").result_code = "" ∧
    (errorRow "bad.com" "timeout of 15000ms exceeded").result_msg = "" ∧
    (errorRow "bad.com" "timeout of 15000ms exceeded").results_count = 0 ∧
    (errorRow "bad.com" "timeout of 15000ms exceeded").results_json = "" ∧
    (errorRow "bad.com" "timeout of 15000ms exceeded").meta_social_json = "" ∧
    (errorRow "bad.com" "timeout of 15000ms exceeded").tech = List.replicate 10 emptySlot :=
  C7_failure_recovered ⟨500, 15000⟩ oracleW "bad.com" ["c.nl"] 0 [] []
    "timeout of 15000ms exceeded" (by decide) (by rfl)

/-! ## C6 -/


/-- There are always exactly ten slots. -/
theorem techSlots_length (ts : List Tech) : (techSlots ts).length = 10 := by
  simp [techSlots]
  omega

/-- Characterization of slot `j` (for `j < 10`): the projection of entry
`j` when one exists, the empty slot otherwise. -/
theorem techSlots_getD (ts : List Tech) (j : Nat) (hj : j < 10) :
    (techSlots ts).getD j emptySlot
      = if j < ts.length then slotOfTech (ts.getD j defTech) else emptySlot := by
  unfold techSlots
  by_cases h : j < ts.length
  · rw [if_pos h, List.getD_eq_getElem?_getD,
      List.getElem?_append_left (by simp; omega),
      List.getElem?_map, List.getElem?_take_of_lt hj, List.getElem?_eq_getElem h]
    simp [List.getD_eq_getElem?_getD, List.getElem?_eq_getElem h]
  · rw [if_neg h, List.getD_eq_getElem?_getD,
      List.getElem?_append_right (by simp; omega),
      List.getElem?_replicate]
    have hcond : j - ((ts.take 10).map slotOfTech).length < 10 - ts.length := by
      simp
      omega
    rw [if_pos hcond]
    rfl

/-- C6: for a successful detection with `N` technologies, the row's count
field is `N` and the ten fixed slots satisfy the projection: slot `j`
(for `j < 10`) is the projection of technology `j` exactly when
`j < N`, and the empty slot otherwise — so with nonempty technology names
there are exactly `min N 10` filled slots and the rest empty, overflow
entries (`j ≥ 10`) appear in no slot, and for `N > 10` all ten slots are
filled while `Results_Count` still reports `N`. -/
theorem C6_fixed_width_projection (d : String) (td : TechResult)
    (hnames : ∀ t ∈ td.results, t.name.getD "" ≠ "") :
    (buildRow d td).results_count = td.results.length ∧
    (buildRow d td).tech.length = 10 ∧
    (∀ j, j < 10 →
      (((buildRow d td).tech.getD j emptySlot ≠ emptySlot) ↔ j < td.results.length)) ∧
    (∀ j, j < 10 → j < td.results.length →
      (buildRow d td).tech.getD j emptySlot = slotOfTech (td.results.getD j defTech)) := by
  refine ⟨rfl, techSlots_length td.results, ?_, ?_⟩
  · intro j hj
    show ((techSlots td.results).getD j emptySlot ≠ emptySlot) ↔ _
    rw [techSlots_getD _ _ hj]
    by_cases h : j < td.results.length
    · rw [if_pos h]
      refine ⟨fun _ => h, fun _ heq => ?_⟩
      have hmem : td.results.getD j defTech ∈ td.results := by
        rw [List.getD_eq_getElem?_getD, List.getElem?_eq_getElem h]
        exact List.getElem_mem h
      have hname := congrArg TechSlot.name heq
      exact hnames _ hmem (by simpa [slotOfTech, emptySlot] using hname)
    · rw [if_neg h]
      simp [h]
  · intro j hj h
    show (techSlots td.results).getD j emptySlot = _
    rw [techSlots_getD _ _ hj, if_pos h]

/-- C6 witness: a detection result with two technologies, both named. -/
theorem C6_fixed_width_projection_witness :
    (buildRow "a.nl" ⟨"a.nl", "t", "200", "Success",
        [⟨some "Umbraco", some "3", some "8.0", some ["CMS"], none⟩,
         ⟨some "jQuery", none, none, none, none⟩], [], ""⟩).results_count = 2 ∧
    (buildRow "a.nl" ⟨"a.nl", "t", "200", "Success",
        [⟨some "Umbraco", some "3", some "8.0", some ["CMS"], none⟩,
         ⟨some "jQuery", none, none, none, none⟩], [], ""⟩).tech.length = 10 ∧
    (∀ j, j < 10 →
      (((buildRow "a.nl" ⟨"a.nl", "t", "200", "Success",
          [⟨some "Umbraco", some "3", some "8.0", some ["CMS"], none⟩,
           ⟨some "jQuery", none, none, none, none⟩], [], ""⟩).tech.getD j emptySlot
        ≠ emptySlot) ↔ j < 2)) ∧
    (∀ j, j < 10 → j < 2 →
      (buildRow "a.nl" ⟨"a.nl", "t", "200", "Success",
          [⟨some "Umbraco", some "3", some "8.0", some ["CMS"], none⟩,
           ⟨some "jQuery", none, none, none, none⟩], [], ""⟩).tech.getD j emptySlot
        = slotOfTech ([⟨some "Umbraco", some "3", some "8.0", some ["CMS"], none⟩,
           (⟨some "jQuery", none, none, none, none⟩ : Tech)].getD j defTech)) :=
  C6_fixed_width_projection "a.nl" ⟨"a.nl", "t", "200", "Success",
        [⟨some "Umbraco", some "3", some "8.0", some ["CMS"], none⟩,
         ⟨some "jQuery", none, none, none, none⟩], [], ""⟩ (by decide)

/-! ## C10 -/


/-- C10: the success-branch row is a function of the domain and the
normalized detection result alone — `umbracoResult` (the case-insensitive
match against `'umbraco'`) feeds only the console line of the branch —
and replacing the name of technology `k` (e.g. turning a matching name
into a non-matching one) changes no row field other than slot `k`'s name
and the serialized technology sequence `results_json`: every other
metadata field, every other slot, and slot `k`'s id, version, categories
and url are unchanged. -/
theorem C10_match_affects_console_only (i total : Nat) (d : String) (td : TechResult)
    (k : Nat) (hk : k < td.results.length) (n' : Option String) :
    (successStep i total d td).2 = buildRow d td ∧
    (buildRow d (withName td k n')).domain = (buildRow d td).domain ∧
    (buildRow d (withName td k n')).request = (buildRow d td).request ∧
    (buildRow d (withName td k n')).last_checked = (buildRow d td).last_checked ∧
    (buildRow d (withName td k n')).result_code = (buildRow d td).result_code ∧
    (buildRow d (withName td k n')).result_msg = (buildRow d td).result_msg ∧
    (buildRow d (withName td k n')).results_count = (buildRow d td).results_count ∧
    (buildRow d (withName td k n')).meta_social_json = (buildRow d td).meta_social_json ∧
    (buildRow d (withName td k n')).error = (buildRow d td).error ∧
    (buildRow d (withName td k n')).tech.length = (buildRow d td).tech.length ∧
    (∀ j, j < 10 → j ≠ k →
      (buildRow d (withName td k n')).tech.getD j emptySlot
        = (buildRow d td).tech.getD j emptySlot) ∧
    ((buildRow d (withName td k n')).tech.getD k emptySlot).id
        = ((buildRow d td).tech.getD k emptySlot).id ∧
    ((buildRow d (withName td k n')).tech.getD k emptySlot).version
        = ((buildRow d td).tech.getD k emptySlot).version ∧
    ((buildRow d (withName td k n')).tech.getD k emptySlot).categories
        = ((buildRow d td).tech.getD k emptySlot).categories ∧
    ((buildRow d (withName td k n')).tech.getD k emptySlot).url
        = ((buildRow d td).tech.getD k emptySlot).url := by
  have hlen : (withName td k n').results.length = td.results.length := by
    simp [withName]
  have hget_ne : ∀ j, j ≠ k →
      (withName td k n').results.getD j defTech = td.results.getD j defTech := by
    intro j hne
    simp [withName, List.getD_eq_getElem?_getD, List.getElem?_set_ne (Ne.symm hne)]
  have hget_k : (withName td k n').results.getD k defTech
      = { td.results.getD k defTech with name := n' } := by
    simp [withName, List.getD_eq_getElem?_getD, List.getElem?_set_self (by simpa using hk)]
  have hslot : ∀ j, j < 10 → j ≠ k →
      (buildRow d (withName td k n')).tech.getD j emptySlot
        = (buildRow d td).tech.getD j emptySlot := by
    intro j hj hne
    show (techSlots (withName td k n').results).getD j emptySlot
      = (techSlots td.results).getD j emptySlot
    rw [techSlots_getD _ _ hj, techSlots_getD _ _ hj, hlen, hget_ne j hne]
  have hslot_k : ∀ fld : TechSlot → String,
      (fld (slotOfTech { td.results.getD k defTech with name := n' })
        = fld (slotOfTech (td.results.getD k defTech))) →
      fld ((buildRow d (withName td k n')).tech.getD k emptySlot)
        = fld ((buildRow d td).tech.getD k emptySlot) := by
    intro fld hfld
    show fld ((techSlots (withName td k n').results).getD k emptySlot)
      = fld ((techSlots td.results).getD k emptySlot)
    by_cases hk10 : k < 10
    · rw [techSlots_getD _ _ hk10, techSlots_getD _ _ hk10, hlen, if_pos hk, if_pos hk,
        hget_k]
      exact hfld
    · rw [List.getD_eq_default _ _ (by rw [techSlots_length]; omega),
        List.getD_eq_default _ _ (by rw [techSlots_length]; omega)]
  refine ⟨rfl, rfl, rfl, rfl, rfl, rfl, ?_, rfl, rfl, ?_, hslot, ?_, ?_, ?_, ?_⟩
  · show (withName td k n').results.length = td.results.length
    exact hlen
  · show (techSlots (withName td k n').results).length = (techSlots td.results).length
    rw [techSlots_length, techSlots_length]
  · exact hslot_k TechSlot.id rfl
  · exact hslot_k TechSlot.version rfl
  · exact hslot_k TechSlot.categories rfl
  · exact hslot_k TechSlot.url rfl

/-- C10 witness: one technology named `Umbraco` (a match), renamed to
`WordPress` (not a match); everything but the name slot and the JSON dump
agrees. -/
theorem C10_match_affects_console_only_witness :
    (successStep 0 1 "a.nl" wTd).2 = buildRow "a.nl" wTd ∧
    (buildRow "a.nl" (withName wTd 0 (some "WordPress"))).domain = (buildRow "a.nl" wTd).domain ∧
    (buildRow "a.nl" (withName wTd 0 (some "WordPress"))).request = (buildRow "a.nl" wTd).request ∧
    (buildRow "a.nl" (withName wTd 0 (some "WordPress"))).last_checked = (buildRow "a.nl" wTd).last_checked ∧
    (buildRow "a.nl" (withName wTd 0 (some "WordPress"))).result_code = (buildRow "a.nl" wTd).result_code ∧
    (buildRow "a.nl" (withName wTd 0 (some "WordPress"))).result_msg = (buildRow "a.nl" wTd).result_msg ∧
    (buildRow "a.nl" (withName wTd 0 (some "WordPress"))).results_count = (buildRow "a.nl" wTd).results_count ∧
    (buildRow "a.nl" (withName wTd 0 (some "WordPress"))).meta_social_json = (buildRow "a.nl" wTd).meta_social_json ∧
    (buildRow "a.nl" (withName wTd 0 (some "WordPress"))).error = (buildRow "a.nl" wTd).error ∧
    (buildRow "a.nl" (withName wTd 0 (some "WordPress"))).tech.length = (buildRow "a.nl" wTd).tech.length ∧
    (∀ j, j < 10 → j ≠ 0 →
      (buildRow "a.nl" (withName wTd 0 (some "WordPress"))).tech.getD j emptySlot
        = (buildRow "a.nl" wTd).tech.getD j emptySlot) ∧
    ((buildRow "a.nl" (withName wTd 0 (some "WordPress"))).tech.getD 0 emptySlot).id
        = ((buildRow "a.nl" wTd).tech.getD 0 emptySlot).id ∧
    ((buildRow "a.nl" (withName wTd 0 (some "WordPress"))).tech.getD 0 emptySlot).version
        = ((buildRow "a.nl" wTd).tech.getD 0 emptySlot).version ∧
    ((buildRow "a.nl" (withName wTd 0 (some "WordPress"))).tech.getD 0 emptySlot).categories
        = ((buildRow "a.nl" wTd).tech.getD 0 emptySlot).categories ∧
    ((buildRow "a.nl" (withName wTd 0 (some "WordPress"))).tech.getD 0 emptySlot).url
        = ((buildRow "a.nl" wTd).tech.getD 0 emptySlot).url :=
  C10_match_affects_console_only 0 1 "a.nl" wTd 0 (by decide) (some "WordPress")

/-! ## C3 -/

/-- C3 counterexample: a loaded list of one `.com` domain, extension
filter `.nl`.  The list is nonempty before filtering, so the empty check
(which, in the code, precedes TLD filtering) passes; filtering leaves no
domain, yet the run proceeds to `writeRecords` and creates an output file
— it does not exit with "no output file" as the claim requires for a
sequence that is empty after filtering and truncation. -/
theorem C3_counterexample :
    mainFlow { input := some "domains.txt" } ["a.com"] oracleW (fun _ => false)
        "2025-01-02T03:04:05.678Z" "2025-01-02T03:04:05.678Z"
      = .finished [] 0 "cms-scan-tranco-nl-2025-01-02T03-04-05.csv" ∧
    mainFlow { input := some "domains.txt" } ["a.com"] oracleW (fun _ => false)
        "2025-01-02T03:04:05.678Z" "2025-01-02T03:04:05.678Z"
      ≠ .cleanNoOutput := by
  have h : mainFlow { input := some "domains.txt" } ["a.com"] oracleW (fun _ => false)
        "2025-01-02T03:04:05.678Z" "2025-01-02T03:04:05.678Z"
      = .finished [] 0 "cms-scan-tranco-nl-2025-01-02T03-04-05.csv" := by rfl
  exact ⟨h, by rw [h]; simp⟩

/-- C3 (amended): the clean exit with no output file happens exactly when
the **loaded** sequence is empty, before TLD filtering and limit
truncation; a sequence that becomes empty only after filtering proceeds
to serialization and creates an output file holding zero data rows. -/
theorem C3_empty_check_precedes_filter (opts : Opts) (acquired : List String)
    (oracle : String → ApiBehavior) (ex : String → Bool) (raw1 raw2 : String)
    (p : Plan)
    (h1 : opts.source ≠ "alexa") (h2 : PLANS opts.plan = some p)
    (h3 : (opts.fetch = true ∧ (opts.source = "majestic" ∨ opts.source = "tranco"))
        ∨ (opts.fetch = false ∧ jsTruthy opts.input = true)) :
    (acquired = [] → mainFlow opts acquired oracle ex raw1 raw2 = .cleanNoOutput) ∧
    (jsTruthy opts.domain = false → acquired ≠ [] →
      acquired.filter (tldMatch opts.extension) = [] →
      mainFlow opts acquired oracle ex raw1 raw2
        = .finished [] 0 (getOutputFilename opts ex raw1 raw2)) := by
  have hacq : acquireDomains opts acquired = .ok acquired := by
    rcases h3 with ⟨hf, hs⟩ | ⟨hf, hi⟩
    · simp [acquireDomains, hf, hs]
    · simp [acquireDomains, hf, hi]
  constructor
  · intro hemp
    subst hemp
    simp [mainFlow, h1, h2, hacq]
  · intro hdom hne hfil
    have hsel : selectDomains opts acquired = [] := by
      unfold selectDomains
      rw [hdom]
      cases opts.limit with
      | none => simpa using hfil
      | some l =>
        by_cases hl : l ≠ 0 <;> simp [hl, hfil]
    simp [mainFlow, h1, h2, hacq, hne, hsel, runScan, runLoop]

/-- C3 witness: an empty loaded list exits cleanly; a post-filter-empty
list finishes with zero rows and an output file. -/
theorem C3_empty_check_precedes_filter_witness :
    mainFlow { input := some "domains.txt" } [] oracleW (fun _ => false) "R1" "R2"
      = .cleanNoOutput ∧
    mainFlow { input := some "domains.txt" } ["b.com"] oracleW (fun _ => false) "R1" "R2"
      = .finished [] 0
          (getOutputFilename { input := some "domains.txt" } (fun _ => false) "R1" "R2") :=
  ⟨(C3_empty_check_precedes_filter { input := some "domains.txt" } [] oracleW
      (fun _ => false) "R1" "R2" ⟨500, 15000⟩ (by decide) rfl
      (Or.inr ⟨rfl, by decide⟩)).1 rfl,
   (C3_empty_check_precedes_filter { input := some "domains.txt" } ["b.com"] oracleW
      (fun _ => false) "R1" "R2" ⟨500, 15000⟩ (by decide) rfl
      (Or.inr ⟨rfl, by decide⟩)).2 rfl (by simp) (by rfl)⟩

/-! ## C8 -/

/-- C8 counterexample: `results.csv` is itself a perfectly explicit
output path.  Supplied explicitly, with no file existing anywhere, it is
not returned verbatim: the code cannot distinguish it from commander's
default and replaces it by a generated name. -/
theorem C8_counterexample :
    getOutputFilename { output := "results.csv" } (fun _ => false)
        "2025-01-02T03:04:05.678Z" "2025-01-02T03:04:05.678Z"
      = "cms-scan-tranco-nl-2025-01-02T03-04-05.csv" ∧
    getOutputFilename { output := "results.csv" } (fun _ => false)
        "2025-01-02T03:04:05.678Z" "2025-01-02T03:04:05.678Z"
      ≠ "results.csv" := by
  refine ⟨rfl, ?_⟩
  decide

/-- C8 (amended): an explicit output path is returned verbatim when no
file exists at it, provided it is neither empty nor the default sentinel
`results.csv` (an explicit `results.csv` is indistinguishable from the
commander default and is replaced by a generated name). -/
theorem C8_explicit_path_verbatim (opts : Opts) (ex : String → Bool)
    (raw1 raw2 : String)
    (h0 : opts.output ≠ "") (h1 : opts.output ≠ "results.csv")
    (h2 : ex opts.output = false) :
    getOutputFilename opts ex raw1 raw2 = opts.output := by
  have hres : resolveOutput opts raw1 = opts.output := by
    unfold resolveOutput
    rw [if_neg (by tauto)]
  unfold getOutputFilename
  simp [hres, h2]

/-- C8 witness: explicit `out.csv`, no existing file. -/
theorem C8_explicit_path_verbatim_witness :
    getOutputFilename { output := "out.csv" } (fun _ => false) "R1" "R2" = "out.csv" :=
  C8_explicit_path_verbatim { output := "out.csv" } (fun _ => false) "R1" "R2"
    (by decide) (by decide) rfl

/-! ## C9 -/

/-- C9 counterexample: the resolved path `out.csv` exists, and so does
`out-2025-01-02T03-04-05.csv`, the timestamped variant the code derives.
The code performs no second existence check, so the returned path is one
that *does* exist prior to the call, contradicting the claim (and the
no-silent-overwrite guarantee). -/
theorem C9_counterexample :
    (fun s => s == "out.csv" || s == "out-2025-01-02T03-04-05.csv")
        (resolveOutput { output := "out.csv" } "R1") = true ∧
    (fun s => s == "out.csv" || s == "out-2025-01-02T03-04-05.csv")
        (getOutputFilename { output := "out.csv" }
          (fun s => s == "out.csv" || s == "out-2025-01-02T03-04-05.csv")
          "R1" "2025-01-02T03:04:05.678Z") = true := by
  exact ⟨rfl, rfl⟩

/-- C9 (amended): when the resolved path exists, the Namer returns the
timestamped variant (timestamp inserted before the extension, directory
part dropped by `path.basename`); **provided that variant does not itself
already exist**, the returned path differs from the existing one and did
not exist prior to the call.  The proviso is forced: the code never
re-checks the derived name. -/
theorem C9_collision_rename (opts : Opts) (ex : String → Bool) (raw1 raw2 : String)
    (h1 : ex (resolveOutput opts raw1) = true)
    (h2 : ex (timestampedName (resolveOutput opts raw1) raw2) = false) :
    getOutputFilename opts ex raw1 raw2
      = timestampedName (resolveOutput opts raw1) raw2 ∧
    ex (getOutputFilename opts ex raw1 raw2) = false ∧
    getOutputFilename opts ex raw1 raw2 ≠ resolveOutput opts raw1 := by
  have hmain : getOutputFilename opts ex raw1 raw2
      = timestampedName (resolveOutput opts raw1) raw2 := by
    unfold getOutputFilename
    simp [h1]
  refine ⟨hmain, by rw [hmain]; exact h2, ?_⟩
  intro heq
  have h3 := hmain.symm.trans heq
  rw [h3] at h2
  rw [h1] at h2
  simp at h2

/-- C9 witness: `out.csv` exists, its timestamped variant does not. -/
theorem C9_collision_rename_witness :
    getOutputFilename { output := "out.csv" } (fun s => s == "out.csv")
        "R1" "2025-01-02T03:04:05.678Z"
      = timestampedName (resolveOutput { output := "out.csv" } "R1")
          "2025-01-02T03:04:05.678Z" ∧
    (fun s => s == "out.csv")
        (getOutputFilename { output := "out.csv" } (fun s => s == "out.csv")
          "R1" "2025-01-02T03:04:05.678Z") = false ∧
    getOutputFilename { output := "out.csv" } (fun s => s == "out.csv")
        "R1" "2025-01-02T03:04:05.678Z"
      ≠ resolveOutput { output := "out.csv" } "R1" :=
  C9_collision_rename { output := "out.csv" } (fun s => s == "out.csv")
    "R1" "2025-01-02T03:04:05.678Z" rfl rfl
